import Mathlib

/-!
Shallow embedding of the client-side session store
(`web/frontend/src/stores/session-store.ts`) of the mcp-central
ace_music_gen frontend, together with the API payload types from
`types/index.ts`.  Asynchronous store actions are modelled as pure
functions taking the outcome of the awaited API call as an explicit
argument and returning the new store state paired with the list of
external requests the action issued, in order.
-/

/-- One conversation turn (`ConversationTurn` in `types/index.ts`). -/
structure ConversationTurn where
  role : String
  content : String
  timestamp : String
  metadata : Option String
  deriving Repr, DecidableEq

/-- One debug log entry (`DebugLog` in `types/index.ts`). -/
structure DebugLog where
  timestamp : String
  level : String
  message : String
  metadata : Option String
  deriving Repr, DecidableEq

/-- One lyrics version (`LyricsVersion` in `types/index.ts`). -/
structure LyricsVersion where
  version : Int
  content : String
  approved : Bool
  user_feedback : Option String
  created_at : String
  pinyin_annotated : Option String
  deriving Repr, DecidableEq

/-- Collected requirement fields (`UserRequirement` in `types/index.ts`). -/
structure UserRequirement where
  style : String
  mood : String
  duration : Int
  language : String
  specific_requests : List String
  theme : String
  target_audience : String
  deriving Repr, DecidableEq

/-- One generated audio file reference (`AudioFile` in `types/index.ts`).
JSON numbers are modelled as integers; the store never computes on them. -/
structure AudioFile where
  url : String
  filename : String
  duration : Int
  score : Int
  deriving Repr, DecidableEq

/-- Final session result (`SessionResult` in `types/index.ts`). -/
structure SessionResult where
  audio_files : List AudioFile
  final_lyrics : String
  deriving Repr, DecidableEq

/-- Source `data` payload of a successful `startSession` (`SessionData`). -/
structure SessionData where
  session_id : String
  created_at : String
  status : String
  deriving Repr, DecidableEq

/-- Snapshot payload returned by `getSessionState` (`SessionState` in
`types/index.ts`).  Fields the store defends with `|| fallback` are
modelled as `Option`s. -/
structure SessionSnapshot where
  session_id : String
  current_stage : String
  stage_description : Option String
  progress_percentage : Option Int
  conversation_history : Option (List ConversationTurn)
  user_requirement : Option UserRequirement
  lyrics_versions : Option (List LyricsVersion)
  debug_logs : Option (List DebugLog)
  deriving Repr, DecidableEq

/-- The `error` object of an `APIResponse`. -/
structure ApiError where
  code : String
  message : String
  deriving Repr, DecidableEq

/-- Source `APIResponse<T>` from `types/index.ts`. -/
structure ApiResponse (α : Type) where
  success : Bool
  data : Option α
  error : Option ApiError
  deriving Repr, DecidableEq

/-- Outcome of one awaited API call: `.ok r` is a resolved response,
`.error (some m)` a rejected promise carrying an `Error` with message `m`,
`.error none` a thrown non-`Error` value. -/
def ApiOutcome (α : Type) : Type := Except (Option String) (ApiResponse α)

/-- External requests a store action issues, in program order. -/
inductive ApiAction where
  | postStart
  | postMessage (sessionId : String) (content : String) (messageType : String)
  | postReview (sessionId : String) (version : Int) (approved : Bool)
      (feedback : Option String)
  | closeEventSource (handle : Nat)
  | fetchSnapshot (sessionId : String)
  | openSubscription (sessionId : String) (handle : Nat)
  | fetchResult (sessionId : String)
  deriving Repr, DecidableEq

/-- The zustand store state (`SessionStore` fields, `session-store.ts`
lines 17-60).  The `_eventSource` handle is modelled as `Option Nat`. -/
structure SessionStore where
  sessionId : Option String
  isConnected : Bool
  connectionError : Option String
  currentStage : String
  stageDescription : String
  progressPercentage : Int
  conversationHistory : List ConversationTurn
  userRequirement : Option UserRequirement
  lyricsVersions : List LyricsVersion
  debugLogs : List DebugLog
  showDebugPanel : Bool
  sessionResult : Option SessionResult
  isLoading : Bool
  error : Option String
  eventSource : Option Nat
  deriving Repr, DecidableEq

/-- Initial store state (`session-store.ts` lines 64-79). -/
def initialState : SessionStore where
  sessionId := none
  isConnected := false
  connectionError := none
  currentStage := "initializing"
  stageDescription := ""
  progressPercentage := 0
  conversationHistory := []
  userRequirement := none
  lyricsVersions := []
  debugLogs := []
  showDebugPanel := false
  sessionResult := none
  isLoading := false
  error := none
  eventSource := none

/-- JavaScript falsiness of the `sessionId : string | null` field, as
tested by `if (!sessionId) return`. -/
def idFalsy : Option String → Bool
  | none => true
  | some s => s == ""

/-- Source `response.error?.message || dflt`: the thrown message when a response
reports failure. -/
def errMessageOr (dflt : String) : Option ApiError → String
  | none => dflt
  | some e => if e.message = "" then dflt else e.message

/-- Source `error instanceof Error ? error.message : dflt` in a catch block. -/
def caughtMessage (dflt : String) : Option String → String
  | some m => m
  | none => dflt

/-- Source `feedback || null`: empty or absent feedback is stored as `null`. -/
def feedbackOrNull : Option String → Option String
  | none => none
  | some f => if f = "" then none else some f

/-- The last `n` elements of a list, in order (`Array.prototype.slice(-n)`
on the appended array). -/
def lastN (n : Nat) (l : List α) : List α := l.drop (l.length - n)

/-- Source `sendMessage` (`session-store.ts` lines 113-139). -/
def sendMessage (s : SessionStore) (content : String)
    (resp : ApiOutcome Unit) : SessionStore × List ApiAction :=
  if idFalsy s.sessionId then (s, [])
  else
    let sid := s.sessionId.getD ""
    let s1 := { s with isLoading := true }
    let acts := [ApiAction.postMessage sid content "user_input"]
    match resp with
    | .ok r =>
      if r.success then ({ s1 with isLoading := false }, acts)
      else
        ({ s1 with error := some (errMessageOr "发送消息失败" r.error),
                   isLoading := false }, acts)
    | .error ex =>
      ({ s1 with error := some (caughtMessage "发送消息失败" ex),
                 isLoading := false }, acts)

/-- The per-element update performed by `reviewLyrics` on success
(`session-store.ts` lines 158-162). -/
def applyReview (version : Int) (approved : Bool) (feedback : Option String)
    (l : LyricsVersion) : LyricsVersion :=
  if l.version = version
  then { l with approved := approved, user_feedback := feedbackOrNull feedback }
  else l

/-- Source `reviewLyrics` (`session-store.ts` lines 142-175). -/
def reviewLyrics (s : SessionStore) (version : Int) (approved : Bool)
    (feedback : Option String) (resp : ApiOutcome Unit) :
    SessionStore × List ApiAction :=
  if idFalsy s.sessionId then (s, [])
  else
    let sid := s.sessionId.getD ""
    let s1 := { s with isLoading := true }
    let acts := [ApiAction.postReview sid version approved feedback]
    match resp with
    | .ok r =>
      if r.success then
        ({ s1 with
            lyricsVersions :=
              s1.lyricsVersions.map (applyReview version approved feedback),
            isLoading := false }, acts)
      else
        ({ s1 with error := some (errMessageOr "歌词审核失败" r.error),
                   isLoading := false }, acts)
    | .error ex =>
      ({ s1 with error := some (caughtMessage "歌词审核失败" ex),
                 isLoading := false }, acts)

/-- Hydration of the replica from a fetched snapshot
(`session-store.ts` lines 192-204): applied only when the response
succeeded and carried data. -/
def hydrateFromSnapshot (s : SessionStore)
    (r : ApiResponse SessionSnapshot) : SessionStore :=
  if r.success then
    match r.data with
    | some st =>
      { s with
        currentStage := st.current_stage,
        stageDescription := st.stage_description.getD "",
        progressPercentage := st.progress_percentage.getD 0,
        conversationHistory := st.conversation_history.getD [],
        userRequirement := st.user_requirement,
        lyricsVersions := st.lyrics_versions.getD [],
        debugLogs := st.debug_logs.getD [] }
    | none => s
  else s

/-- Source `connectToStream` (`session-store.ts` lines 178-272).  `snap` is the
outcome of the awaited `getSessionState` call; `h` is the handle of the
`EventSource` created by `createEventSource` when reached. -/
def connectToStream (s : SessionStore) (snap : ApiOutcome SessionSnapshot)
    (h : Nat) : SessionStore × List ApiAction :=
  if idFalsy s.sessionId then (s, [])
  else
    let sid := s.sessionId.getD ""
    let closeActs :=
      match s.eventSource with
      | some es => [ApiAction.closeEventSource es]
      | none => []
    let s1 := { s with eventSource := none }
    match snap with
    | .error _ =>
      ({ s1 with connectionError := some "SSE连接失败" },
       closeActs ++ [ApiAction.fetchSnapshot sid])
    | .ok r =>
      ({ hydrateFromSnapshot s1 r with eventSource := some h },
       closeActs ++ [ApiAction.fetchSnapshot sid, ApiAction.openSubscription sid h])

/-- Source `disconnectFromStream` (`session-store.ts` lines 275-284). -/
def disconnectFromStream (s : SessionStore) : SessionStore × List ApiAction :=
  match s.eventSource with
  | some es =>
    ({ s with eventSource := none, isConnected := false },
     [ApiAction.closeEventSource es])
  | none => (s, [])

/-- Source `addConversationTurn` (`session-store.ts` lines 295-299). -/
def addConversationTurn (s : SessionStore) (turn : ConversationTurn) :
    SessionStore :=
  { s with conversationHistory := s.conversationHistory ++ [turn] }

/-- Source `addDebugLog` (`session-store.ts` lines 302-306): append and keep the
most recent 50 entries. -/
def addDebugLog (s : SessionStore) (log : DebugLog) : SessionStore :=
  { s with debugLogs := lastN 50 (s.debugLogs ++ [log]) }

/-- Payload of a `state_update` delta event. -/
structure StateUpdatePayload where
  stage : String
  description : String
  progress : Int
  deriving Repr, DecidableEq

/-- The `state_update` event listener (`session-store.ts` lines 236-243). -/
def applyStateUpdate (s : SessionStore) (d : StateUpdatePayload) :
    SessionStore :=
  { s with
    currentStage := d.stage,
    stageDescription := d.description,
    progressPercentage := d.progress }

/-- The `chat_message` event listener (`session-store.ts` lines 226-234). -/
def applyChatMessage (s : SessionStore) (turn : ConversationTurn) :
    SessionStore :=
  addConversationTurn s turn

/-- The `debug_log` event listener (`session-store.ts` lines 245-253). -/
def applyDebugLogEvent (s : SessionStore) (log : DebugLog) : SessionStore :=
  addDebugLog s log

/-- The `error` event listener (`session-store.ts` lines 255-258). -/
def applyErrorEvent (s : SessionStore) (e : String) : SessionStore :=
  { s with error := some e }

/-- The `eventSource.onopen` handler (`session-store.ts` lines 208-211). -/
def onSseOpen (s : SessionStore) : SessionStore :=
  { s with isConnected := true, connectionError := none }

/-- The `eventSource.onerror` handler (`session-store.ts` lines 213-219):
it records the disconnection and performs no external request. -/
def onSseError (s : SessionStore) : SessionStore × List ApiAction :=
  ({ s with isConnected := false, connectionError := some "SSE连接失败" }, [])

/-- Source `toggleDebugPanel` (`session-store.ts` lines 309-313). -/
def toggleDebugPanel (s : SessionStore) : SessionStore :=
  { s with showDebugPanel := !s.showDebugPanel }

/-- Source `setError` (`session-store.ts` lines 316-318). -/
def setError (s : SessionStore) (e : Option String) : SessionStore :=
  { s with error := e }

/-- Source `clearSession` (`session-store.ts` lines 321-338). -/
def clearSession (s : SessionStore) : SessionStore × List ApiAction :=
  let p := disconnectFromStream s
  ({ p.1 with
      sessionId := none
      isConnected := false
      connectionError := none
      currentStage := "initializing"
      stageDescription := ""
      progressPercentage := 0
      conversationHistory := []
      userRequirement := none
      lyricsVersions := []
      debugLogs := []
      sessionResult := none
      error := none
      eventSource := none }, p.2)

/-- Source `fetchSessionResult` (`session-store.ts` lines 341-353). -/
def fetchSessionResult (s : SessionStore)
    (resp : ApiOutcome SessionResult) : SessionStore × List ApiAction :=
  if idFalsy s.sessionId then (s, [])
  else
    let sid := s.sessionId.getD ""
    let acts := [ApiAction.fetchResult sid]
    match resp with
    | .ok r =>
      if r.success then
        match r.data with
        | some res => ({ s with sessionResult := some res }, acts)
        | none => (s, acts)
      else (s, acts)
    | .error _ => (s, acts)

/-- Source `startSession` (`session-store.ts` lines 82-110): on success it stores
the new session id and runs `connectToStream`. -/
def startSession (s : SessionStore) (resp : ApiOutcome SessionData)
    (snap : ApiOutcome SessionSnapshot) (h : Nat) :
    SessionStore × List ApiAction :=
  let s1 := { s with isLoading := true, error := none }
  match resp with
  | .ok r =>
    match r.data with
    | some d =>
      if r.success then
        let s2 := { s1 with
          sessionId := some d.session_id,
          currentStage := "initializing",
          stageDescription := "会话已创建，正在初始化...",
          progressPercentage := 0,
          isLoading := false }
        let p := connectToStream s2 snap h
        (p.1, ApiAction.postStart :: p.2)
      else
        ({ s1 with error := some (errMessageOr "创建会话失败" r.error),
                   isLoading := false }, [ApiAction.postStart])
    | none =>
      if r.success then
        ({ s1 with error := some (errMessageOr "创建会话失败" r.error),
                   isLoading := false }, [ApiAction.postStart])
      else
        ({ s1 with error := some (errMessageOr "创建会话失败" r.error),
                   isLoading := false }, [ApiAction.postStart])
  | .error ex =>
    ({ s1 with error := some (caughtMessage "创建会话失败" ex),
               isLoading := false }, [ApiAction.postStart])

/-- Effect of one issued request on the multiset of open event-source
handles this client has created and not yet closed. -/
def applyApiAction (handles : List Nat) : ApiAction → List Nat
  | .closeEventSource h => handles.erase h
  | .openSubscription _ h => handles ++ [h]
  | _ => handles

/-- Effect of a whole request trace on the open event-source handles. -/
def applyApiActions (handles : List Nat) (acts : List ApiAction) : List Nat :=
  acts.foldl applyApiAction handles

/-- The client world: the store state plus the handles of the event
sources this client has opened and not yet closed. -/
structure ClientWorld where
  store : SessionStore
  openHandles : List Nat
  deriving Repr, DecidableEq

/-- Run one store action in the world: the store takes the returned
state, the issued requests open and close event sources. -/
def stepWorld (w : ClientWorld) (p : SessionStore × List ApiAction) :
    ClientWorld :=
  ⟨p.1, applyApiActions w.openHandles p.2⟩

/-- Lift a store action that issues no request. -/
def pureOp (s : SessionStore) : SessionStore × List ApiAction := (s, [])

/-- One atomic client-side operation, with arbitrary arguments and
arbitrary API outcomes: every store action and every event handler of
`session-store.ts`. -/
inductive ClientStep : ClientWorld → ClientWorld → Prop
  | start (w : ClientWorld) (resp : ApiOutcome SessionData)
      (snap : ApiOutcome SessionSnapshot) (h : Nat) :
      ClientStep w (stepWorld w (startSession w.store resp snap h))
  | send (w : ClientWorld) (content : String) (resp : ApiOutcome Unit) :
      ClientStep w (stepWorld w (sendMessage w.store content resp))
  | review (w : ClientWorld) (version : Int) (approved : Bool)
      (feedback : Option String) (resp : ApiOutcome Unit) :
      ClientStep w (stepWorld w (reviewLyrics w.store version approved feedback resp))
  | connect (w : ClientWorld) (snap : ApiOutcome SessionSnapshot) (h : Nat) :
      ClientStep w (stepWorld w (connectToStream w.store snap h))
  | disconnect (w : ClientWorld) :
      ClientStep w (stepWorld w (disconnectFromStream w.store))
  | result (w : ClientWorld) (resp : ApiOutcome SessionResult) :
      ClientStep w (stepWorld w (fetchSessionResult w.store resp))
  | clear (w : ClientWorld) :
      ClientStep w (stepWorld w (clearSession w.store))
  | chatEvent (w : ClientWorld) (turn : ConversationTurn) :
      ClientStep w (stepWorld w (pureOp (applyChatMessage w.store turn)))
  | stateEvent (w : ClientWorld) (d : StateUpdatePayload) :
      ClientStep w (stepWorld w (pureOp (applyStateUpdate w.store d)))
  | debugEvent (w : ClientWorld) (log : DebugLog) :
      ClientStep w (stepWorld w (pureOp (applyDebugLogEvent w.store log)))
  | errorEvent (w : ClientWorld) (e : String) :
      ClientStep w (stepWorld w (pureOp (applyErrorEvent w.store e)))
  | sseOpen (w : ClientWorld) :
      ClientStep w (stepWorld w (pureOp (onSseOpen w.store)))
  | sseError (w : ClientWorld) :
      ClientStep w (stepWorld w (onSseError w.store))
  | togglePanel (w : ClientWorld) :
      ClientStep w (stepWorld w (pureOp (toggleDebugPanel w.store)))
  | setErr (w : ClientWorld) (e : Option String) :
      ClientStep w (stepWorld w (pureOp (setError w.store e)))

/-- Worlds reachable from the initial store with no open event source by
any finite sequence of client operations. -/
inductive ClientReachable : ClientWorld → Prop
  | init : ClientReachable ⟨initialState, []⟩
  | step {w w' : ClientWorld} :
      ClientReachable w → ClientStep w w' → ClientReachable w'

/-- The open handles the store itself refers to. -/
def handlesOf (s : SessionStore) : List Nat :=
  match s.eventSource with
  | some h => [h]
  | none => []

/-- Concrete debug log entry used to instantiate theorems. -/
def sampleLog : DebugLog := ⟨"2024-01-01T00:00:00Z", "info", "hello", none⟩

/-- Concrete lyrics version 1 used to instantiate theorems. -/
def lyr1 : LyricsVersion := ⟨1, "first draft", true, none, "t1", none⟩

/-- Concrete lyrics version 2 used to instantiate theorems. -/
def lyr2 : LyricsVersion := ⟨2, "second draft", false, none, "t2", none⟩

/-- Concrete store holding a session id and two lyrics versions. -/
def storeTwoLyrics : SessionStore :=
  { initialState with sessionId := some "abc", lyricsVersions := [lyr1, lyr2] }

/-- Concrete store with a live subscription handle. -/
def storeConnected : SessionStore :=
  { initialState with
      sessionId := some "abc", isConnected := true, eventSource := some 0 }

/-- Concrete successful empty API response. -/
def okUnit : ApiResponse Unit := ⟨true, none, none⟩

/-- Concrete snapshot payload used to instantiate theorems. -/
def sampleSnapshot : SessionSnapshot :=
  ⟨"abc", "collecting_requirements", some "collecting", some 5,
   some [], none, some [], some []⟩

/-! ## Helper lemmas -/

theorem hydrate_eventSource (s : SessionStore) (r : ApiResponse SessionSnapshot) :
    (hydrateFromSnapshot s r).eventSource = s.eventSource := by
  unfold hydrateFromSnapshot
  split
  · split <;> rfl
  · rfl

theorem feedbackOrNull_eq {fb : Option String} (h : fb ≠ some "") :
    feedbackOrNull fb = fb := by
  cases fb with
  | none => rfl
  | some f =>
    have hf : ¬ f = "" := fun he => h (by rw [he])
    simp [feedbackOrNull, hf]

theorem lastN_suffix (n : Nat) (l : List α) : lastN n l <:+ l :=
  List.drop_suffix _ l

theorem lastN_length (n : Nat) (l : List α) :
    (lastN n l).length = min n l.length := by
  simp [lastN]
  omega

theorem lastN_of_le {n : Nat} {l : List α} (h : l.length ≤ n) :
    lastN n l = l := by
  simp [lastN, Nat.sub_eq_zero_of_le h]

theorem suffix_eq_of_length {l s1 s2 : List α} (h1 : s1 <:+ l)
    (h2 : s2 <:+ l) (h : s1.length = s2.length) : s1 = s2 := by
  obtain ⟨t1, rfl⟩ := h1
  obtain ⟨t2, ht⟩ := h2
  have hlen : t2.length = t1.length := by
    have := congrArg List.length ht
    simp only [List.length_append] at this
    omega
  exact ((List.append_inj ht hlen).2).symm

theorem lastN_append_lastN (n : Nat) (xs ys : List α) :
    lastN n (lastN n xs ++ ys) = lastN n (xs ++ ys) := by
  apply suffix_eq_of_length (l := xs ++ ys)
  · refine (lastN_suffix n _).trans ?_
    obtain ⟨t, ht⟩ := lastN_suffix n xs
    exact ⟨t, by rw [← List.append_assoc, ht]⟩
  · exact lastN_suffix n _
  · simp [lastN_length]
    omega

/-! ## Claim theorems -/

/-- C1: applying the same `state_update` payload twice in succession to
the client replica yields exactly the same store state as applying it
once — the listener unconditionally overwrites `stage`, `description`
and `progress`, so the reapplication changes nothing. -/
theorem C1_state_update_idempotent (s : SessionStore) (d : StateUpdatePayload) :
    applyStateUpdate (applyStateUpdate s d) d = applyStateUpdate s d := rfl

/-- C7: the `error` delta event listener sets the user-visible `error`
field to the payload and changes nothing else: the subscription handle,
the connection flag, the connection error and all replicated session
state are untouched, so an `error` event never terminates the stream. -/
theorem C7_error_event_only_sets_error (s : SessionStore) (e : String) :
    (applyErrorEvent s e).error = some e ∧
    (applyErrorEvent s e).eventSource = s.eventSource ∧
    (applyErrorEvent s e).isConnected = s.isConnected ∧
    (applyErrorEvent s e).connectionError = s.connectionError ∧
    (applyErrorEvent s e).sessionId = s.sessionId ∧
    (applyErrorEvent s e).currentStage = s.currentStage ∧
    (applyErrorEvent s e).stageDescription = s.stageDescription ∧
    (applyErrorEvent s e).progressPercentage = s.progressPercentage ∧
    (applyErrorEvent s e).conversationHistory = s.conversationHistory ∧
    (applyErrorEvent s e).userRequirement = s.userRequirement ∧
    (applyErrorEvent s e).lyricsVersions = s.lyricsVersions ∧
    (applyErrorEvent s e).debugLogs = s.debugLogs ∧
    (applyErrorEvent s e).sessionResult = s.sessionResult ∧
    (applyErrorEvent s e).showDebugPanel = s.showDebugPanel ∧
    (applyErrorEvent s e).isLoading = s.isLoading := by
  refine ⟨rfl, rfl, rfl, rfl, rfl, rfl, rfl, rfl, rfl, rfl, rfl, rfl, rfl,
    rfl, rfl⟩

/-- C8: `sendMessage` never appends the sent turn itself — for every
outcome of the request the conversation history is unchanged and only
the `isLoading` and `error` fields may differ — while the
`chat_message` event listener is what appends a turn to the history. -/
theorem C8_sendMessage_never_appends :
    (∀ (s : SessionStore) (content : String) (resp : ApiOutcome Unit),
        ((sendMessage s content resp).1).conversationHistory =
          s.conversationHistory ∧
        { (sendMessage s content resp).1 with
            isLoading := s.isLoading, error := s.error } = s) ∧
    (∀ (s : SessionStore) (turn : ConversationTurn),
        (applyChatMessage s turn).conversationHistory =
          s.conversationHistory ++ [turn]) := by
  constructor
  · intro s content resp
    unfold sendMessage
    split
    · exact ⟨rfl, rfl⟩
    · cases resp with
      | ok r =>
        by_cases hr : r.success = true <;> simp [hr]
      | error ex => exact ⟨rfl, rfl⟩
  · intro s turn
    rfl

theorem foldl_addDebugLog (logs : List DebugLog) :
    ∀ s : SessionStore, s.debugLogs.length ≤ 50 →
      (logs.foldl addDebugLog s).debugLogs = lastN 50 (s.debugLogs ++ logs) := by
  induction logs with
  | nil =>
    intro s h
    simp [lastN_of_le h]
  | cons l rest ih =>
    intro s h
    have h1 : (addDebugLog s l).debugLogs = lastN 50 (s.debugLogs ++ [l]) := rfl
    have hlen : (addDebugLog s l).debugLogs.length ≤ 50 := by
      rw [h1, lastN_length]
      exact Nat.min_le_left _ _
    rw [List.foldl_cons, ih (addDebugLog s l) hlen, h1, lastN_append_lastN]
    simp

/-- C3: after any nonempty sequence of `addDebugLog` calls, starting
from an arbitrary store state, the `debugLogs` list has at most 50
entries, and it consists of exactly the most recent entries of the
appended sequence in arrival order (the last 50 of the old buffer
followed by the appended logs). -/
theorem C3_debugLogs_capped (s : SessionStore) (logs : List DebugLog)
    (h : logs ≠ []) :
    (logs.foldl addDebugLog s).debugLogs.length ≤ 50 ∧
    (logs.foldl addDebugLog s).debugLogs = lastN 50 (s.debugLogs ++ logs) := by
  cases logs with
  | nil => exact absurd rfl h
  | cons l rest =>
    have h1 : (addDebugLog s l).debugLogs = lastN 50 (s.debugLogs ++ [l]) := rfl
    have hlen : (addDebugLog s l).debugLogs.length ≤ 50 := by
      rw [h1, lastN_length]
      exact Nat.min_le_left _ _
    have heq := foldl_addDebugLog rest (addDebugLog s l) hlen
    rw [List.foldl_cons, heq, h1, lastN_append_lastN]
    constructor
    · rw [lastN_length]
      exact Nat.min_le_left _ _
    · simp

/-- C3 witness: instantiating the cap theorem at the initial store and a
single concrete log entry. -/
theorem C3_debugLogs_capped_witness :
    ([sampleLog] ≠ ([] : List DebugLog)) ∧
    (([sampleLog].foldl addDebugLog initialState).debugLogs.length ≤ 50 ∧
     ([sampleLog].foldl addDebugLog initialState).debugLogs =
       lastN 50 (initialState.debugLogs ++ [sampleLog])) :=
  ⟨by simp, C3_debugLogs_capped initialState [sampleLog] (by simp)⟩

/-- C9: with a null session id, `sendMessage`, `reviewLyrics`,
`connectToStream` and `fetchSessionResult` all return immediately:
whatever their other arguments and whatever the outcome of any request
would have been, the store is unchanged and no request is issued. -/
theorem C9_null_session_noop (s : SessionStore) (h : s.sessionId = none) :
    (∀ (content : String) (resp : ApiOutcome Unit),
        sendMessage s content resp = (s, [])) ∧
    (∀ (version : Int) (approved : Bool) (feedback : Option String)
        (resp : ApiOutcome Unit),
        reviewLyrics s version approved feedback resp = (s, [])) ∧
    (∀ (snap : ApiOutcome SessionSnapshot) (hdl : Nat),
        connectToStream s snap hdl = (s, [])) ∧
    (∀ resp : ApiOutcome SessionResult,
        fetchSessionResult s resp = (s, [])) := by
  have hf : idFalsy s.sessionId = true := by rw [h]; rfl
  refine ⟨?_, ?_, ?_, ?_⟩ <;> intros <;>
    simp [sendMessage, reviewLyrics, connectToStream, fetchSessionResult, hf]

/-- C9 witness: instantiating the no-op theorem at the initial store,
whose session id is null. -/
theorem C9_null_session_noop_witness :
    initialState.sessionId = none ∧
    sendMessage initialState "hello" (.ok okUnit) = (initialState, []) ∧
    reviewLyrics initialState 1 true none (.ok okUnit) = (initialState, []) ∧
    connectToStream initialState (.error none) 0 = (initialState, []) ∧
    fetchSessionResult initialState (.error none) = (initialState, []) := by
  obtain ⟨h1, h2, h3, h4⟩ := C9_null_session_noop initialState rfl
  exact ⟨rfl, h1 "hello" (.ok okUnit), h2 1 true none (.ok okUnit),
    h3 (.error none) 0, h4 (.error none)⟩

theorem reviewLyrics_success_lyrics (s : SessionStore) (sid : String)
    (version : Int) (approved : Bool) (feedback : Option String)
    (r : ApiResponse Unit) (hs : s.sessionId = some sid) (hne : sid ≠ "")
    (hsucc : r.success = true) :
    (reviewLyrics s version approved feedback (.ok r)).1.lyricsVersions =
      s.lyricsVersions.map (applyReview version approved feedback) := by
  have hf : idFalsy s.sessionId = false := by
    rw [hs]
    simp [idFalsy, hne]
  simp [reviewLyrics, hf, hsucc]

/-- C5: when `reviewLyrics` succeeds, exactly the entries whose version
number equals the given version have `approved` and `user_feedback`
updated to the given values (with non-empty feedback), and every entry
with a different version number is left entirely unchanged; the list
keeps its length. -/
theorem C5_reviewLyrics_frame (s : SessionStore) (sid : String)
    (version : Int) (approved : Bool) (feedback : Option String)
    (r : ApiResponse Unit) (hs : s.sessionId = some sid) (hne : sid ≠ "")
    (hsucc : r.success = true) (hfb : feedback ≠ some "") :
    (reviewLyrics s version approved feedback (.ok r)).1.lyricsVersions.length =
      s.lyricsVersions.length ∧
    ∀ (i : Nat) (l : LyricsVersion),
      (reviewLyrics s version approved feedback (.ok r)).1.lyricsVersions[i]? =
        some l →
      ∃ orig : LyricsVersion, s.lyricsVersions[i]? = some orig ∧
        (orig.version ≠ version → l = orig) ∧
        (orig.version = version →
          l.approved = approved ∧ l.user_feedback = feedback ∧
          l.version = orig.version ∧ l.content = orig.content ∧
          l.created_at = orig.created_at ∧
          l.pinyin_annotated = orig.pinyin_annotated) := by
  have hred := reviewLyrics_success_lyrics s sid version approved feedback r
    hs hne hsucc
  constructor
  · rw [hred, List.length_map]
  · intro i l hl
    rw [hred, List.getElem?_map] at hl
    cases horig : s.lyricsVersions[i]? with
    | none =>
      rw [horig] at hl
      simp at hl
    | some orig =>
      rw [horig] at hl
      simp only [Option.map_some', Option.some.injEq] at hl
      refine ⟨orig, rfl, ?_, ?_⟩
      · intro hver
        rw [← hl]
        simp [applyReview, hver]
      · intro hver
        rw [← hl]
        simp [applyReview, hver, feedbackOrNull_eq hfb]

/-- C5 witness: reviewing version 1 of two stored versions with
approval false and feedback too slow, via the frame theorem. -/
theorem C5_reviewLyrics_frame_witness :
    storeTwoLyrics.sessionId = some "abc" ∧ "abc" ≠ "" ∧
    okUnit.success = true ∧ some "too slow" ≠ some "" ∧
    ((reviewLyrics storeTwoLyrics 1 false (some "too slow")
        (.ok okUnit)).1.lyricsVersions.length =
      storeTwoLyrics.lyricsVersions.length ∧
     ∀ (i : Nat) (l : LyricsVersion),
      (reviewLyrics storeTwoLyrics 1 false (some "too slow")
          (.ok okUnit)).1.lyricsVersions[i]? = some l →
      ∃ orig : LyricsVersion, storeTwoLyrics.lyricsVersions[i]? = some orig ∧
        (orig.version ≠ 1 → l = orig) ∧
        (orig.version = 1 →
          l.approved = false ∧ l.user_feedback = some "too slow" ∧
          l.version = orig.version ∧ l.content = orig.content ∧
          l.created_at = orig.created_at ∧
          l.pinyin_annotated = orig.pinyin_annotated)) :=
  ⟨rfl, by decide, rfl, by decide,
   C5_reviewLyrics_frame storeTwoLyrics "abc" 1 false (some "too slow")
     okUnit rfl (by decide) rfl (by decide)⟩

/-- C10: when `reviewLyrics` succeeds, the matching entry stores the
given feedback string exactly when it is non-empty, and stores null when
the feedback argument is omitted or is the empty string — an
empty-string feedback is normalized to null, never stored as the empty
string. -/
theorem C10_feedback_normalized (s : SessionStore) (sid : String)
    (version : Int) (approved : Bool) (feedback : Option String)
    (r : ApiResponse Unit) (hs : s.sessionId = some sid) (hne : sid ≠ "")
    (hsucc : r.success = true) :
    ∀ (i : Nat) (l orig : LyricsVersion),
      (reviewLyrics s version approved feedback (.ok r)).1.lyricsVersions[i]? =
        some l →
      s.lyricsVersions[i]? = some orig →
      orig.version = version →
      (∀ f : String, feedback = some f → f ≠ "" → l.user_feedback = some f) ∧
      ((feedback = none ∨ feedback = some "") → l.user_feedback = none) := by
  have hred := reviewLyrics_success_lyrics s sid version approved feedback r
    hs hne hsucc
  intro i l orig hl horig hver
  rw [hred, List.getElem?_map, horig] at hl
  simp only [Option.map_some', Option.some.injEq] at hl
  have hlfb : l.user_feedback = feedbackOrNull feedback := by
    rw [← hl]
    simp [applyReview, hver]
  constructor
  · intro f hf hfne
    rw [hlfb, hf]
    simp [feedbackOrNull, hfne]
  · intro hor
    cases hor with
    | inl h0 => rw [hlfb, h0]; rfl
    | inr h0 => rw [hlfb, h0]; rfl

/-- C10 witness: reviewing version 2 with empty-string feedback stores
null, via the normalization theorem. -/
theorem C10_feedback_normalized_witness :
    storeTwoLyrics.sessionId = some "abc" ∧ "abc" ≠ "" ∧
    okUnit.success = true ∧
    (reviewLyrics storeTwoLyrics 2 true (some "")
        (.ok okUnit)).1.lyricsVersions[1]? =
      some { lyr2 with approved := true, user_feedback := none } ∧
    ({ lyr2 with approved := true, user_feedback := none } :
        LyricsVersion).user_feedback = none := by
  have happ := C10_feedback_normalized storeTwoLyrics "abc" 2 true (some "")
    okUnit rfl (by decide) rfl 1
    { lyr2 with approved := true, user_feedback := none } lyr2
    (by decide) rfl rfl
  exact ⟨rfl, by decide, rfl, by decide, happ.2 (Or.inr rfl)⟩

/-- C4: for every run of `connectToStream` with a usable session id, the
issued request trace contains the snapshot fetch at a position strictly
before every opened subscription, and whenever the snapshot call
resolves the subscription is indeed opened afterwards — the
subscription is never opened before the snapshot fetch completed. -/
theorem C4_snapshot_before_subscribe (s : SessionStore) (sid : String)
    (snap : ApiOutcome SessionSnapshot) (h : Nat)
    (hs : s.sessionId = some sid) (hne : sid ≠ "") :
    (∃ i : Nat,
      (connectToStream s snap h).2[i]? = some (ApiAction.fetchSnapshot sid) ∧
      ∀ (j : Nat) (sid2 : String) (hdl : Nat),
        (connectToStream s snap h).2[j]? =
          some (ApiAction.openSubscription sid2 hdl) → i < j) ∧
    (∀ r : ApiResponse SessionSnapshot, snap = .ok r →
      ∃ j : Nat,
        (connectToStream s snap h).2[j]? =
          some (ApiAction.openSubscription sid h)) := by
  have hf : idFalsy s.sessionId = false := by
    rw [hs]
    simp [idFalsy, hne]
  cases hes : s.eventSource with
  | some es =>
    cases snap with
    | ok r =>
      have htr : (connectToStream s (.ok r) h).2 =
          [ApiAction.closeEventSource es, ApiAction.fetchSnapshot sid,
           ApiAction.openSubscription sid h] := by
        simp [connectToStream, idFalsy, hne, hes, hs]
      refine ⟨⟨1, by rw [htr]; rfl, ?_⟩, ?_⟩
      · intro j sid2 hdl hj
        rw [htr] at hj
        match j with
        | 0 => simp at hj
        | 1 => simp at hj
        | 2 => omega
        | n + 3 => simp at hj
      · intro r2 _
        exact ⟨2, by rw [htr]; rfl⟩
    | error ex =>
      have htr : (connectToStream s (.error ex) h).2 =
          [ApiAction.closeEventSource es, ApiAction.fetchSnapshot sid] := by
        simp [connectToStream, idFalsy, hne, hes, hs]
      refine ⟨⟨1, by rw [htr]; rfl, ?_⟩, ?_⟩
      · intro j sid2 hdl hj
        rw [htr] at hj
        match j with
        | 0 => simp at hj
        | 1 => simp at hj
        | n + 2 => simp at hj
      · intro r2 hr2
        exact Except.noConfusion hr2
  | none =>
    cases snap with
    | ok r =>
      have htr : (connectToStream s (.ok r) h).2 =
          [ApiAction.fetchSnapshot sid, ApiAction.openSubscription sid h] := by
        simp [connectToStream, idFalsy, hne, hes, hs]
      refine ⟨⟨0, by rw [htr]; rfl, ?_⟩, ?_⟩
      · intro j sid2 hdl hj
        rw [htr] at hj
        match j with
        | 0 => simp at hj
        | 1 => omega
        | n + 2 => simp at hj
      · intro r2 _
        exact ⟨1, by rw [htr]; rfl⟩
    | error ex =>
      have htr : (connectToStream s (.error ex) h).2 =
          [ApiAction.fetchSnapshot sid] := by
        simp [connectToStream, idFalsy, hne, hes, hs]
      refine ⟨⟨0, by rw [htr]; rfl, ?_⟩, ?_⟩
      · intro j sid2 hdl hj
        rw [htr] at hj
        match j with
        | 0 => simp at hj
        | n + 1 => simp at hj
      · intro r2 hr2
        exact Except.noConfusion hr2

/-- C4 witness: instantiating the ordering theorem at a concrete store,
snapshot response and handle. -/
theorem C4_snapshot_before_subscribe_witness :
    storeTwoLyrics.sessionId = some "abc" ∧ "abc" ≠ "" ∧
    ((∃ i : Nat,
      (connectToStream storeTwoLyrics
          (.ok ⟨true, some sampleSnapshot, none⟩) 7).2[i]? =
        some (ApiAction.fetchSnapshot "abc") ∧
      ∀ (j : Nat) (sid2 : String) (hdl : Nat),
        (connectToStream storeTwoLyrics
            (.ok ⟨true, some sampleSnapshot, none⟩) 7).2[j]? =
          some (ApiAction.openSubscription sid2 hdl) → i < j) ∧
    (∀ r : ApiResponse SessionSnapshot,
      (.ok ⟨true, some sampleSnapshot, none⟩ :
        ApiOutcome SessionSnapshot) = .ok r →
      ∃ j : Nat,
        (connectToStream storeTwoLyrics
            (.ok ⟨true, some sampleSnapshot, none⟩) 7).2[j]? =
          some (ApiAction.openSubscription "abc" 7))) :=
  ⟨rfl, by decide,
   C4_snapshot_before_subscribe storeTwoLyrics "abc"
     (.ok ⟨true, some sampleSnapshot, none⟩) 7 rfl (by decide)⟩

/-- C2 counterexample: at a concrete connected store the dropped-stream
handler leaves the old subscription handle open and in place and issues
no request at all — no close, no snapshot fetch, no new subscription —
so the store does not re-run the snapshot-then-subscribe sequence when
it detects a dropped stream. -/
theorem C2_reconnect_counterexample :
    (onSseError storeConnected).1.eventSource = some 0 ∧
    (onSseError storeConnected).2 = [] :=
  ⟨rfl, rfl⟩

/-- C2 amended: on detecting a dropped stream the store only records the
disconnection — `isConnected` becomes false and `connectionError` is
set — issuing no request and leaving every other field, including the
subscription handle, unchanged; the snapshot-then-subscribe sequence is
re-run only when `connectToStream` is explicitly called again, and that
call does close the old subscription first and fetch the snapshot
before subscribing. -/
theorem C2_reconnect_amended (s : SessionStore) :
    (onSseError s).1 =
      { s with isConnected := false,
               connectionError := some "SSE连接失败" } ∧
    (onSseError s).2 = [] ∧
    ∀ (snap : ApiOutcome SessionSnapshot) (h : Nat) (sid : String) (es : Nat),
      s.sessionId = some sid → sid ≠ "" → s.eventSource = some es →
      ∃ rest, (connectToStream s snap h).2 =
        ApiAction.closeEventSource es :: ApiAction.fetchSnapshot sid :: rest := by
  refine ⟨rfl, rfl, ?_⟩
  intro snap h sid es hs hne hes
  cases snap with
  | ok r =>
    exact ⟨[ApiAction.openSubscription sid h],
      by simp [connectToStream, idFalsy, hne, hes, hs]⟩
  | error ex =>
    exact ⟨[], by simp [connectToStream, idFalsy, hne, hes, hs]⟩

/-- C2 amended witness: instantiating the amended theorem at the
concrete connected store. -/
theorem C2_reconnect_amended_witness :
    (onSseError storeConnected).1 =
      { storeConnected with isConnected := false,
                            connectionError := some "SSE连接失败" } ∧
    (onSseError storeConnected).2 = [] ∧
    ∃ rest, (connectToStream storeConnected (.error none) 3).2 =
      ApiAction.closeEventSource 0 :: ApiAction.fetchSnapshot "abc" :: rest := by
  obtain ⟨h1, h2, h3⟩ := C2_reconnect_amended storeConnected
  exact ⟨h1, h2, h3 (.error none) 3 "abc" 0 rfl (by decide) rfl⟩

theorem handlesOf_congr {s1 s2 : SessionStore}
    (h : s1.eventSource = s2.eventSource) : handlesOf s1 = handlesOf s2 := by
  unfold handlesOf
  rw [h]

theorem send_handles (s : SessionStore) (content : String)
    (resp : ApiOutcome Unit) :
    applyApiActions (handlesOf s) (sendMessage s content resp).2 =
      handlesOf (sendMessage s content resp).1 := by
  unfold sendMessage
  dsimp only
  split
  · exact handlesOf_congr rfl
  · cases resp with
    | ok r =>
      dsimp only
      split <;> exact handlesOf_congr rfl
    | error ex => exact handlesOf_congr rfl

theorem review_handles (s : SessionStore) (version : Int) (approved : Bool)
    (feedback : Option String) (resp : ApiOutcome Unit) :
    applyApiActions (handlesOf s)
        (reviewLyrics s version approved feedback resp).2 =
      handlesOf (reviewLyrics s version approved feedback resp).1 := by
  unfold reviewLyrics
  dsimp only
  split
  · exact handlesOf_congr rfl
  · cases resp with
    | ok r =>
      dsimp only
      split <;> exact handlesOf_congr rfl
    | error ex => exact handlesOf_congr rfl

theorem result_handles (s : SessionStore) (resp : ApiOutcome SessionResult) :
    applyApiActions (handlesOf s) (fetchSessionResult s resp).2 =
      handlesOf (fetchSessionResult s resp).1 := by
  unfold fetchSessionResult
  dsimp only
  split
  · exact handlesOf_congr rfl
  · cases resp with
    | ok r =>
      dsimp only
      split
      · split <;> exact handlesOf_congr rfl
      · exact handlesOf_congr rfl
    | error ex => exact handlesOf_congr rfl

theorem connect_handles (s : SessionStore) (snap : ApiOutcome SessionSnapshot)
    (h : Nat) :
    applyApiActions (handlesOf s) (connectToStream s snap h).2 =
      handlesOf (connectToStream s snap h).1 := by
  unfold connectToStream
  dsimp only
  split
  · exact handlesOf_congr rfl
  · cases snap with
    | error ex =>
      cases hes : s.eventSource <;>
        simp [handlesOf, hes, applyApiActions, applyApiAction]
    | ok r =>
      cases hes : s.eventSource <;>
        simp [handlesOf, hes, applyApiActions, applyApiAction]

theorem start_handles (s : SessionStore) (resp : ApiOutcome SessionData)
    (snap : ApiOutcome SessionSnapshot) (h : Nat) :
    applyApiActions (handlesOf s) (startSession s resp snap h).2 =
      handlesOf (startSession s resp snap h).1 := by
  have key : ∀ (s2 : SessionStore) (x : List Nat), x = handlesOf s2 →
      applyApiActions x
          (ApiAction.postStart :: (connectToStream s2 snap h).2) =
        handlesOf (connectToStream s2 snap h).1 := by
    intro s2 x hx
    have hstep : applyApiActions x
        (ApiAction.postStart :: (connectToStream s2 snap h).2) =
        applyApiActions x (connectToStream s2 snap h).2 := rfl
    rw [hstep, hx]
    exact connect_handles s2 snap h
  cases resp with
  | error ex => exact handlesOf_congr rfl
  | ok r =>
    cases hd : r.data with
    | none =>
      cases hrb : r.success <;> simp only [startSession, hd, hrb] <;>
        exact handlesOf_congr rfl
    | some d =>
      cases hrb : r.success with
      | false =>
        simp only [startSession, hd, hrb]
        exact handlesOf_congr rfl
      | true =>
        simp only [startSession, hd, hrb, if_true]
        exact key _ _ (handlesOf_congr rfl)

theorem disconnect_handles (s : SessionStore) :
    applyApiActions (handlesOf s) (disconnectFromStream s).2 =
      handlesOf (disconnectFromStream s).1 := by
  unfold disconnectFromStream
  cases hes : s.eventSource <;>
    simp [handlesOf, hes, applyApiActions, applyApiAction]

theorem clear_handles (s : SessionStore) :
    applyApiActions (handlesOf s) (clearSession s).2 =
      handlesOf (clearSession s).1 := by
  unfold clearSession disconnectFromStream
  cases hes : s.eventSource <;>
    simp [handlesOf, hes, applyApiActions, applyApiAction]

theorem step_preserves {w w' : ClientWorld} (hs : ClientStep w w')
    (hi : w.openHandles = handlesOf w.store) :
    w'.openHandles = handlesOf w'.store := by
  cases hs with
  | start resp snap h =>
    show applyApiActions w.openHandles (startSession w.store resp snap h).2 =
      handlesOf (startSession w.store resp snap h).1
    rw [hi]
    exact start_handles w.store resp snap h
  | send content resp =>
    show applyApiActions w.openHandles (sendMessage w.store content resp).2 =
      handlesOf (sendMessage w.store content resp).1
    rw [hi]
    exact send_handles w.store content resp
  | review version approved feedback resp =>
    show applyApiActions w.openHandles
        (reviewLyrics w.store version approved feedback resp).2 =
      handlesOf (reviewLyrics w.store version approved feedback resp).1
    rw [hi]
    exact review_handles w.store version approved feedback resp
  | connect snap h =>
    show applyApiActions w.openHandles (connectToStream w.store snap h).2 =
      handlesOf (connectToStream w.store snap h).1
    rw [hi]
    exact connect_handles w.store snap h
  | disconnect =>
    show applyApiActions w.openHandles (disconnectFromStream w.store).2 =
      handlesOf (disconnectFromStream w.store).1
    rw [hi]
    exact disconnect_handles w.store
  | result resp =>
    show applyApiActions w.openHandles (fetchSessionResult w.store resp).2 =
      handlesOf (fetchSessionResult w.store resp).1
    rw [hi]
    exact result_handles w.store resp
  | clear =>
    show applyApiActions w.openHandles (clearSession w.store).2 =
      handlesOf (clearSession w.store).1
    rw [hi]
    exact clear_handles w.store
  | chatEvent turn =>
    show w.openHandles = handlesOf (applyChatMessage w.store turn)
    rw [hi]
    exact handlesOf_congr rfl
  | stateEvent d =>
    show w.openHandles = handlesOf (applyStateUpdate w.store d)
    rw [hi]
    exact handlesOf_congr rfl
  | debugEvent log =>
    show w.openHandles = handlesOf (applyDebugLogEvent w.store log)
    rw [hi]
    exact handlesOf_congr rfl
  | errorEvent e =>
    show w.openHandles = handlesOf (applyErrorEvent w.store e)
    rw [hi]
    exact handlesOf_congr rfl
  | sseOpen =>
    show w.openHandles = handlesOf (onSseOpen w.store)
    rw [hi]
    exact handlesOf_congr rfl
  | sseError =>
    show w.openHandles = handlesOf (onSseError w.store).1
    rw [hi]
    exact handlesOf_congr rfl
  | togglePanel =>
    show w.openHandles = handlesOf (toggleDebugPanel w.store)
    rw [hi]
    exact handlesOf_congr rfl
  | setErr e =>
    show w.openHandles = handlesOf (setError w.store e)
    rw [hi]
    exact handlesOf_congr rfl

theorem reachable_handles {w : ClientWorld} (h : ClientReachable w) :
    w.openHandles = handlesOf w.store := by
  induction h with
  | init => rfl
  | step _ hs ih => exact step_preserves hs ih

/-- C6: in every reachable client world the store holds at most one open
event source: `connectToStream` closes any existing one before opening a
new one and `disconnectFromStream` closes the current one, so the list
of subscriptions this client has opened and not closed never has more
than one element, and it is exactly the handle the store refers to. -/
theorem C6_at_most_one_subscription (w : ClientWorld)
    (h : ClientReachable w) :
    w.openHandles.length ≤ 1 ∧ w.openHandles = handlesOf w.store := by
  have hinv := reachable_handles h
  refine ⟨?_, hinv⟩
  rw [hinv]
  cases hes : w.store.eventSource <;> simp [handlesOf, hes]

/-- C6 witness: the invariant instantiated at the initial world, which
is reachable by the base constructor. -/
theorem C6_at_most_one_subscription_witness :
    ClientReachable ⟨initialState, []⟩ ∧
    ((⟨initialState, []⟩ : ClientWorld).openHandles.length ≤ 1 ∧
     (⟨initialState, []⟩ : ClientWorld).openHandles =
       handlesOf (⟨initialState, []⟩ : ClientWorld).store) :=
  ⟨.init, C6_at_most_one_subscription ⟨initialState, []⟩ .init⟩
